import Mathlib

/-!
# Verification of the mysql-operator cluster core

Shallow embedding of `pkg/mysqlcluster/cluster.go` and the
`pkg/apis/mysql/v1alpha1` defaulting/topology code, with theorems settling
the frozen claims about the reconciliation engine, the topology resolver
and the defaulting engine.

Modelling conventions:
* Go `int64`/`int32` values are modelled as `Int` (no overflow occurs in the
  modelled ranges; all arithmetic stays far below 2^63).
* Kubernetes `resource.Quantity` values are modelled by their byte value
  (`.Value()`) where the code does arithmetic on them (memory), and by their
  literal source string where only presence is tested (cpu, storage).
* Go maps (`MysqlConf`, `ResourceList`) are modelled by association lists /
  finite records of optional entries; `len(m)` is the count of present
  entries.
* Blocking calls to the orchestrator client (`Discover`, `Master`,
  `ClusterOSCReplicas`) and the five resource sync methods (whose bodies
  build Kubernetes manifests and are outside the modelled core) are
  modelled by the values they return for the one call under consideration,
  carried as data on the factory / passed as parameters.
* Go `error` is modelled as `Option String` (`none` = nil, `some msg` =
  non-nil error with message `msg`), and fallible query results as
  `Except String α`.
-/

namespace MysqlOperator

/-- Binary units from `v1alpha1`: `KB int64 = 1 << (10*iota)`, `MB`, `GB`. -/
def KB : Int := 1024

/-- Embeds `MB = 1 << 20`. -/
def MB : Int := 1048576

/-- Embeds `GB = 1 << 30`. -/
def GB : Int := 1073741824

/-- A Kubernetes `ResourceList` (map from resource name to quantity),
restricted to the three keys the code ever touches. `cpu` and `storage`
quantities are kept as their literal strings (only presence is tested);
`memory` is kept as its byte value (`Quantity.Value()`). -/
structure ResourceList where
  cpu : Option String := none
  memory : Option Int := none
  storage : Option String := none
  deriving Repr, DecidableEq

/-- Embeds `len` of the Go map: number of present entries. -/
def ResourceList.count (rl : ResourceList) : Nat :=
  (if rl.cpu.isSome then 1 else 0) + (if rl.memory.isSome then 1 else 0) +
    (if rl.storage.isSome then 1 else 0)

/-- Embeds `ResourceList.Memory().Value()`. In Kubernetes, `Memory()` never returns
nil: it returns a zero `Quantity` when the key is absent, so the source's
`mem != nil` guard is always true and the value read is 0 for an absent
entry. -/
def ResourceList.memoryValue (rl : ResourceList) : Int :=
  rl.memory.getD 0

/-- Embeds `v1.ResourceRequirements`. -/
structure ResourceRequirements where
  Requests : ResourceList := {}
  Limits : ResourceList := {}
  deriving Repr, DecidableEq

/-- One `core.WeightedPodAffinityTerm` as built by `PodSpec.UpdateDefaults`. -/
structure WeightedPodAffinityTerm where
  Weight : Int
  TopologyKey : String
  MatchLabels : List (String × String)
  deriving Repr, DecidableEq

/-- Embeds `core.PodAntiAffinity`, restricted to the field the code sets. -/
structure PodAntiAffinity where
  PreferredDuringSchedulingIgnoredDuringExecution : List WeightedPodAffinityTerm
  deriving Repr, DecidableEq

/-- Embeds `core.Affinity`, restricted to the field the code touches. -/
structure Affinity where
  PodAntiAffinity : Option PodAntiAffinity := none
  deriving Repr, DecidableEq

/-- Embeds `v1alpha1.PodSpec`, restricted to the fields the modelled code touches. -/
structure PodSpec where
  ImagePullPolicy : String := ""
  Resources : ResourceRequirements := {}
  Affinity : Affinity := {}
  deriving Repr, DecidableEq

/-- Embeds `v1alpha1.VolumeSpec`, restricted to the fields the modelled code
touches. Access modes are kept as strings (`"ReadWriteOnce"`). -/
structure VolumeSpec where
  AccessModes : List String := []
  Resources : ResourceRequirements := {}
  deriving Repr, DecidableEq

/-- Embeds `v1alpha1.MysqlConf` (`map[string]string`), as an association list;
iteration order of the Go map is irrelevant to every modelled observation
(only `len` and per-key lookup are used). -/
abbrev MysqlConf := List (String × String)

/-- Embeds `v1alpha1.ClusterSpec`, restricted to the fields the modelled code
touches. Note: the spec type carries no orchestrator/topology-authority
address field; `GetOrcUri` reads the package-global options (see below). -/
structure ClusterSpec where
  MysqlVersion : String := ""
  SecretName : String := ""
  MysqlConf : MysqlConf := []
  PodSpec : PodSpec := {}
  VolumeSpec : VolumeSpec := {}
  deriving Repr, DecidableEq

/-- Embeds `v1alpha1.ClusterStatus`, restricted to `ReadyNodes` (Go `int`/`int32`). -/
structure ClusterStatus where
  ReadyNodes : Int := 0
  deriving Repr, DecidableEq

/-- Embeds `v1alpha1.MysqlCluster`: object meta (name, namespace), spec, status. -/
structure MysqlCluster where
  Name : String := ""
  Ns : String := ""
  Spec : ClusterSpec := {}
  Status : ClusterStatus := {}
  deriving Repr, DecidableEq

/-- Embeds `options.Options`, restricted to the fields the modelled code reads. -/
structure Options where
  MysqlImageTag : String := ""
  ImagePullPolicy : String := ""
  OrchestratorUri : String := ""
  deriving Repr, DecidableEq

/-- Embeds `MysqlCluster.GetLabels`. -/
def MysqlCluster.GetLabels (c : MysqlCluster) : List (String × String) :=
  [("app", "mysql-operator"), ("mysql_cluster", c.Name)]

/-- Embeds `resourceRequestCPU = "200m"`. -/
def resourceRequestCPU : String := "200m"

/-- Embeds `resourceRequestMemory = "1Gi"`; `resource.MustParse("1Gi").Value()` is
2^30 bytes, recorded here as the memory quantity's byte value. -/
def resourceRequestMemoryValue : Int := GB

/-- Embeds `resourceStorage = "1Gi"`. -/
def resourceStorage : String := "1Gi"

/-- Embeds `PodSpec.UpdateDefaults(opt, cluster)`: fill pull policy, the resource
requests floor (cpu 200m, memory 1Gi) when the requests map is empty —
note the whole `ResourceRequirements` struct is assigned, so any `Limits`
present alongside empty `Requests` are overwritten — and the preferred
pod anti-affinity term when unset. -/
def PodSpec.UpdateDefaults (opt : Options) (cluster : MysqlCluster)
    (ps : PodSpec) : PodSpec :=
  let ps := if ps.ImagePullPolicy.length = 0 then
      { ps with ImagePullPolicy := opt.ImagePullPolicy }
    else ps
  let ps := if ps.Resources.Requests.count = 0 then
      { ps with Resources :=
          { Requests :=
              { cpu := some resourceRequestCPU,
                memory := some resourceRequestMemoryValue } } }
    else ps
  if ps.Affinity.PodAntiAffinity.isNone then
    { ps with Affinity :=
        { PodAntiAffinity := some
            { PreferredDuringSchedulingIgnoredDuringExecution :=
                [{ Weight := 100,
                   TopologyKey := "kubernetes.io/hostname",
                   MatchLabels := cluster.GetLabels }] } } }
  else ps

/-- Embeds `VolumeSpec.UpdateDefaults()`: default access mode `ReadWriteOnce` and
storage request `1Gi` when unset (again assigning the whole
`ResourceRequirements` struct). The Go function returns `(error, always
nil)`; modelled as the updated value. -/
def VolumeSpec.UpdateDefaults (vs : VolumeSpec) : VolumeSpec :=
  let vs := if vs.AccessModes.length = 0 then
      { vs with AccessModes := ["ReadWriteOnce"] }
    else vs
  if vs.Resources.Requests.count = 0 then
    { vs with Resources :=
        { Requests := { storage := some resourceStorage } } }
  else vs

/-- The buffer-pool size computed from the memory byte value `memV`, from
`ClusterSpec.UpdateDefaults`:
`int64(float64(mem)*0.5)` and `int64(float64(mem)*0.75)` are exact floor
divisions for every memory value below 2^51 bytes (the float64 products are
exact there and int64 conversion truncates); modelled as integer floor
division. -/
def bufferSizeFor (memV : Int) : Int :=
  if memV < GB then 128 * MB
  else if memV ≤ 4 * GB then memV / 2
  else 3 * memV / 4

/-- The log-file size computed from the memory byte value, from
`ClusterSpec.UpdateDefaults`. The `memV ≤ 8*GB` tier reads `512 * GB` in
the source (not `512 * MB`). -/
def logFileSizeFor (memV : Int) : Int :=
  if memV < GB then 48 * MB
  else if memV ≤ 4 * GB then 128 * MB
  else if memV ≤ 8 * GB then 512 * GB
  else if memV ≤ 16 * GB then 1 * GB
  else 2 * GB

/-- Embeds `ClusterSpec.UpdateDefaults(opt, cluster)`: default the version from the
options, default the pod spec, then — when the respective configuration key
is absent — store `innodb-buffer-pool-size` and `innodb-log-file-size`
computed from the requested memory, formatted with
`strconv.FormatInt(·, 10)`, and finally default the volume spec. -/
def ClusterSpec.UpdateDefaults (opt : Options) (cluster : MysqlCluster)
    (c : ClusterSpec) : ClusterSpec :=
  let c := if c.MysqlVersion.length = 0 then
      { c with MysqlVersion := opt.MysqlImageTag }
    else c
  let c := { c with PodSpec := c.PodSpec.UpdateDefaults opt cluster }
  let c := if c.MysqlConf.length = 0 then { c with MysqlConf := [] } else c
  let c := if (c.MysqlConf.lookup "innodb-buffer-pool-size").isNone then
      { c with MysqlConf := c.MysqlConf ++
          [("innodb-buffer-pool-size",
            toString (bufferSizeFor c.PodSpec.Resources.Requests.memoryValue))] }
    else c
  let c := if (c.MysqlConf.lookup "innodb-log-file-size").isNone then
      { c with MysqlConf := c.MysqlConf ++
          [("innodb-log-file-size",
            toString (logFileSizeFor c.PodSpec.Resources.Requests.memoryValue))] }
    else c
  { c with VolumeSpec := c.VolumeSpec.UpdateDefaults }

/-- Embeds `MysqlCluster.UpdateDefaults(opt)` = `c.Spec.UpdateDefaults(opt, c)`,
mutating the spec in place; modelled as returning the updated cluster. -/
def MysqlCluster.UpdateDefaults (opt : Options) (c : MysqlCluster) :
    MysqlCluster :=
  { c with Spec := c.Spec.UpdateDefaults opt c }

/-! ## Resource names, hostnames and the orchestrator URI -/

/-- Embeds `ResourceName` is a string type with four named constants. -/
abbrev ResourceName := String

/-- Embeds `HeadlessSVC ResourceName = "headless"`. -/
def HeadlessSVC : ResourceName := "headless"

/-- Embeds `StatefulSet ResourceName = "mysql"`. -/
def StatefulSet : ResourceName := "mysql"

/-- Embeds `ConfigMap ResourceName = "config-files"`. -/
def ConfigMap : ResourceName := "config-files"

/-- Embeds `BackupCronJob ResourceName = "backup-cron"`. -/
def BackupCronJob : ResourceName := "backup-cron"

/-- Package-level `GetNameForResource(name, clusterName)`: every resource
kind maps to the single derived name `<clusterName>-mysql`. -/
def GetNameForResource (_name : ResourceName) (clusterName : String) : String :=
  clusterName ++ "-mysql"

/-- Embeds `MysqlCluster.GetNameForResource`: the source switches on the four
constants but both arms call the same package-level function. -/
def MysqlCluster.GetNameForResource (c : MysqlCluster) (name : ResourceName) :
    String :=
  if name = HeadlessSVC ∨ name = StatefulSet ∨ name = ConfigMap ∨
      name = BackupCronJob then
    MysqlOperator.GetNameForResource name c.Name
  else
    MysqlOperator.GetNameForResource name c.Name

/-- Embeds `ClusterSpec.GetOrcUri()` returns `opt.OrchestratorUri` where `opt` is
the package-level options singleton (set once in `init()` from
`options.GetOptions()`); the `ClusterSpec` receiver is not read. The
singleton is modelled as an explicit `Options` argument. -/
def ClusterSpec.GetOrcUri (_c : ClusterSpec) (opt : Options) : String :=
  opt.OrchestratorUri

/-- Embeds `MysqlCluster.GetPodHostName(p)` =
`<statefulSetName>-<p>.<headlessSvcName>` (no namespace component). -/
def MysqlCluster.GetPodHostName (c : MysqlCluster) (p : Int) : String :=
  let pod := c.GetNameForResource StatefulSet ++ "-" ++ toString p
  pod ++ "." ++ c.GetNameForResource HeadlessSVC

/-! ## Topology resolver

The orchestrator client (`orc.NewFromUri(...)`) performs blocking network
queries; each query's result is passed to the resolver as data:
`Except String α` models `(value, error)` with non-nil error as `.error`. -/

/-- Embeds `orc.InstanceKey`, restricted to the hostname. -/
structure InstanceKey where
  Hostname : String
  deriving Repr, DecidableEq

/-- Embeds `sql.NullInt64`: validity flag plus value. -/
structure NullInt64 where
  Valid : Bool
  Int64 : Int
  deriving Repr, DecidableEq

/-- Embeds `orc.Instance`, restricted to the fields the resolver reads. -/
structure Instance where
  Key : InstanceKey
  SecondsBehindMaster : NullInt64
  deriving Repr, DecidableEq

/-- Embeds `MysqlCluster.GetHealtySlaveHost()` (sic). `replicasResult` is the
outcome of `client.ClusterOSCReplicas(c.Name)`; the query is only issued
when `ReadyNodes ≥ 1` and an orchestrator URI is configured, so the result
parameter is simply unused on the other paths. The loop keeps overwriting
`host` with each replica whose lag is valid and ≤ 5, so the last qualifying
replica wins. -/
def MysqlCluster.GetHealtySlaveHost (c : MysqlCluster) (opt : Options)
    (replicasResult : Except String (List Instance)) : String :=
  if c.Status.ReadyNodes < 1 then
    c.GetPodHostName 0
  else
    let host := c.GetPodHostName (c.Status.ReadyNodes - 1)
    if (c.Spec.GetOrcUri opt).length ≠ 0 then
      match replicasResult with
      | .error _ => host
      | .ok replicas =>
          replicas.foldl
            (fun host r =>
              if r.SecondsBehindMaster.Valid ∧ r.SecondsBehindMaster.Int64 ≤ 5
              then r.Key.Hostname
              else host)
            host
    else host

/-- Embeds `MysqlCluster.GetMasterHost()`. `masterResult` is the outcome of
`client.Master(<name>.<namespace>)`; on error the default (pod 0) is kept. -/
def MysqlCluster.GetMasterHost (c : MysqlCluster) (opt : Options)
    (masterResult : Except String Instance) : String :=
  let masterHost := c.GetPodHostName 0
  if (c.Spec.GetOrcUri opt).length ≠ 0 then
    match masterResult with
    | .ok inst => inst.Key.Hostname
    | .error _ => masterHost
  else masterHost

/-! ## Reconciliation engine (`cFactory.Sync`) -/

/-- Sync outcome strings (note the source's `"faild"` typo). -/
def statusUpToDate : String := "up-to-date"

/-- Embeds `statusCreated = "created"`. -/
def statusCreated : String := "created"

/-- Embeds `statusUpdated = "updated"`. -/
def statusUpdated : String := "updated"

/-- Embeds `statusFailed = "faild"` (sic). -/
def statusFailed : String := "faild"

/-- Embeds `statusSkip = "skip"`. -/
def statusSkip : String := "skip"

/-- The `(string, error)` pair returned by one `syncFn` call. -/
structure SyncResult where
  state : String := statusUpToDate
  err : Option String := none
  deriving Repr, DecidableEq

/-- Event reason constants from the `v1alpha1` package (values defined
outside the modelled sources; only their identity matters, so each is
modelled by its own constant name). -/
def EventReasonDbSecretFailed : String := "EventReasonDbSecretFailed"

/-- Failure reason for the config map unit. -/
def EventReasonConfigMapFailed : String := "EventReasonConfigMapFailed"

/-- Failure reason for the headless service unit. -/
def EventReasonServiceFailed : String := "EventReasonServiceFailed"

/-- Failure reason for the statefulset unit. -/
def EventReasonSFSFailed : String := "EventReasonSFSFailed"

/-- Failure reason for the backup cron job unit. -/
def EventReasonCronJobFailed : String := "EventReasonCronJobFailed"

/-- Update reason for the secret unit. -/
def EventReasonDbSecretUpdated : String := "EventReasonDbSecretUpdated"

/-- Update reason for the config map unit. -/
def EventReasonConfigMapUpdated : String := "EventReasonConfigMapUpdated"

/-- Update reason for the headless service unit. -/
def EventReasonServiceUpdated : String := "EventReasonServiceUpdated"

/-- Update reason for the statefulset unit. -/
def EventReasonSFSUpdated : String := "EventReasonSFSUpdated"

/-- Update reason for the backup cron job unit. -/
def EventReasonCronJobUpdated : String := "EventReasonCronJobUpdated"

/-- Embeds `api.EventWarning`. -/
def EventWarning : String := "Warning"

/-- Embeds `api.EventNormal`. -/
def EventNormal : String := "Normal"

/-- One call to `f.rec.Event(f.cluster, severity, reason, message)`. -/
structure Event where
  severity : String
  reason : String
  message : String
  deriving Repr, DecidableEq

/-- A `component` of the sync loop. `syncFn` is a closure
`func() (string, error)`; it is modelled by the `SyncResult` its one
invocation in this reconciliation call returns. -/
structure component where
  alias' : String
  name : String
  syncFn : SyncResult
  reasonFailed : String
  reasonUpdated : String
  deriving Repr, DecidableEq

/-- Embeds `MysqlPort`: constant of the `mysqlcluster` package defined outside the
given sources; its value is irrelevant to every claim (it is only passed
through to `Discover`). -/
def MysqlPort : Int := 3306

/-- Embeds `cFactory`: the cluster, the options, the factory's namespace and
hashes, plus — since the method bodies of the five sync functions and of
`orc.Discover` build/query external resources outside the modelled core —
the results those calls return during this reconciliation call. `discover
host port` is the error returned by `client.Discover(host, port)`. -/
structure cFactory where
  cluster : MysqlCluster
  opt : Options
  ns : String := ""
  configHash : String := "1"
  secretHash : String := "1"
  syncClusterSecret : SyncResult := {}
  syncConfigMysqlMap : SyncResult := {}
  syncHeadlessService : SyncResult := {}
  syncStatefulSet : SyncResult := {}
  syncBackupCronJob : SyncResult := {}
  discover : String → Int → Option String := fun _ _ => none

/-- Embeds `cFactory.getComponents()`: the fixed ordered list of the five sync
units. -/
def cFactory.getComponents (f : cFactory) : List component :=
  [{ alias' := "cluster-secret",
     name := f.cluster.Spec.SecretName,
     syncFn := f.syncClusterSecret,
     reasonFailed := EventReasonDbSecretFailed,
     reasonUpdated := EventReasonDbSecretUpdated },
   { alias' := "config-map",
     name := f.cluster.GetNameForResource ConfigMap,
     syncFn := f.syncConfigMysqlMap,
     reasonFailed := EventReasonConfigMapFailed,
     reasonUpdated := EventReasonConfigMapUpdated },
   { alias' := "headless-service",
     name := f.cluster.GetNameForResource HeadlessSVC,
     syncFn := f.syncHeadlessService,
     reasonFailed := EventReasonServiceFailed,
     reasonUpdated := EventReasonServiceUpdated },
   { alias' := "statefulset",
     name := f.cluster.GetNameForResource StatefulSet,
     syncFn := f.syncStatefulSet,
     reasonFailed := EventReasonSFSFailed,
     reasonUpdated := EventReasonSFSUpdated },
   { alias' := "backup-cron-job",
     name := f.cluster.GetNameForResource BackupCronJob,
     syncFn := f.syncBackupCronJob,
     reasonFailed := EventReasonCronJobFailed,
     reasonUpdated := EventReasonCronJobUpdated }]

/-- The loop body of `cFactory.Sync` over the component list. Returns the
aliases of the units whose sync operation was invoked, the events emitted
via `f.rec.Event`, and the returned error (`none` = nil). On a non-nil
error the loop emits one warning event tagged `reasonFailed` with the
wrapped message `"<name> sync failed: <err>"` and returns it; on success,
outcome `created`/`updated` emits one normal event tagged `reasonUpdated`. -/
def syncComponents : List component → List String × List Event × Option String
  | [] => ([], [], none)
  | comp :: rest =>
    match comp.syncFn.err with
    | some e =>
        ([comp.alias'],
         [{ severity := EventWarning, reason := comp.reasonFailed,
            message := comp.name ++ " sync failed: " ++ e }],
         some (comp.name ++ " sync failed: " ++ e))
    | none =>
        let evs : List Event :=
          if comp.syncFn.state = statusCreated ∨ comp.syncFn.state = statusUpdated
          then [{ severity := EventNormal, reason := comp.reasonUpdated,
                  message := "" }]
          else []
        let r := syncComponents rest
        (comp.alias' :: r.1, evs ++ r.2.1, r.2.2)

/-- Embeds `cFactory.getHostForReplica(no)` =
`<statefulSetName>-<no>.<headlessSvcName>.<cluster namespace>`. -/
def cFactory.getHostForReplica (f : cFactory) (no : Int) : String :=
  f.cluster.GetNameForResource StatefulSet ++ "-" ++ toString no ++ "." ++
    f.cluster.GetNameForResource HeadlessSVC ++ "." ++ f.cluster.Ns

/-- The orchestrator-registration loop at the end of `cFactory.Sync`: for
`i` from 0 below `ReadyNodes`, call `client.Discover(host, MysqlPort)`; a
non-nil error is only logged (`glog.Warningf`) and the loop continues.
Returns the list of `(host, port)` pairs for which `Discover` was invoked. -/
def cFactory.registerNodes (f : cFactory) : List (String × Int) :=
  (List.range f.cluster.Status.ReadyNodes.toNat).foldl
    (fun calls (i : Nat) =>
      let host := f.getHostForReplica (i : Int)
      match f.discover host MysqlPort with
      | some _ => calls ++ [(host, MysqlPort)]
      | none => calls ++ [(host, MysqlPort)])
    []

/-- The observable outcome of one `cFactory.Sync(ctx)` call. -/
structure SyncTrace where
  invoked : List String
  events : List Event
  discoverCalls : List (String × Int)
  err : Option String
  deriving Repr, DecidableEq

/-- Embeds `cFactory.Sync(ctx)`: run the five units fail-fast; if all succeed and
an orchestrator URI is configured, best-effort register the first
`ReadyNodes` replica hosts; return nil. -/
def cFactory.Sync (f : cFactory) : SyncTrace :=
  let r := syncComponents f.getComponents
  match r.2.2 with
  | some e => { invoked := r.1, events := r.2.1, discoverCalls := [], err := some e }
  | none =>
      let calls :=
        if (f.cluster.Spec.GetOrcUri f.opt).length ≠ 0 then f.registerNodes
        else []
      { invoked := r.1, events := r.2.1, discoverCalls := calls, err := none }

/-! ## Helper lemmas -/

/-- Lookup in an appended association list: first list wins. -/
theorem lookup_append (m₁ m₂ : MysqlConf) (k : String) :
    (m₁ ++ m₂).lookup k = (m₁.lookup k).or (m₂.lookup k) := by
  induction m₁ with
  | nil => simp [List.lookup]
  | cons p rest ih =>
      obtain ⟨k', v'⟩ := p
      cases hkk : (k == k') <;> simp [List.lookup, hkk, ih]

/-- The `len(c.MysqlConf) == 0` reassignment in `ClusterSpec.UpdateDefaults`
is observationally the identity. -/
theorem conf_make_id (c : ClusterSpec) :
    (if c.MysqlConf.length = 0 then { c with MysqlConf := [] } else c) = c := by
  split
  · cases c
    simp_all [List.length_eq_zero]
  · rfl

/-- A resource list with a present memory entry has nonzero `len`. -/
theorem count_ne_zero_of_memory {rl : ResourceList} {M : Int}
    (h : rl.memory = some M) : rl.count ≠ 0 := by
  simp [ResourceList.count, h]

/-- Embeds `PodSpec.UpdateDefaults` does not touch `Resources` when the requests
map is nonempty. -/
theorem podSpec_updateDefaults_resources {opt : Options} {cluster : MysqlCluster}
    {ps : PodSpec} (h : ps.Resources.Requests.count ≠ 0) :
    (ps.UpdateDefaults opt cluster).Resources = ps.Resources := by
  simp only [PodSpec.UpdateDefaults]
  split <;> split <;> simp_all

/-- Embeds `PodSpec.UpdateDefaults` installs the cpu/memory floor when the
requests map is empty. -/
theorem podSpec_updateDefaults_resources_of_empty {opt : Options}
    {cluster : MysqlCluster} {ps : PodSpec}
    (h : ps.Resources.Requests.count = 0) :
    (ps.UpdateDefaults opt cluster).Resources =
      { Requests :=
          { cpu := some resourceRequestCPU,
            memory := some resourceRequestMemoryValue } } := by
  simp only [PodSpec.UpdateDefaults]
  split <;> simp_all <;> split <;> rfl

/-- The configuration produced by `ClusterSpec.UpdateDefaults`: the version
defaulting, the map allocation and the volume defaulting leave `MysqlConf`
alone, so the result is the two guarded appends computed from the defaulted
pod spec's requested memory. -/
theorem clusterSpec_updateDefaults_conf (opt : Options) (cluster : MysqlCluster)
    (c : ClusterSpec) :
    (c.UpdateDefaults opt cluster).MysqlConf =
      (let memV := (c.PodSpec.UpdateDefaults opt cluster).Resources.Requests.memoryValue
       let m₁ := if (c.MysqlConf.lookup "innodb-buffer-pool-size").isNone then
           c.MysqlConf ++ [("innodb-buffer-pool-size", toString (bufferSizeFor memV))]
         else c.MysqlConf
       if (m₁.lookup "innodb-log-file-size").isNone then
         m₁ ++ [("innodb-log-file-size", toString (logFileSizeFor memV))]
       else m₁) := by
  obtain ⟨ver, sec, conf, pod, vol⟩ := c
  simp only [ClusterSpec.UpdateDefaults, apply_ite ClusterSpec.MysqlConf,
    apply_ite ClusterSpec.PodSpec]
  split <;> split <;> simp_all [List.length_eq_zero]

/-- Embeds `ClusterSpec.UpdateDefaults` sets the pod spec to its defaulted value. -/
theorem clusterSpec_updateDefaults_podSpec (opt : Options) (cluster : MysqlCluster)
    (c : ClusterSpec) :
    (c.UpdateDefaults opt cluster).PodSpec = c.PodSpec.UpdateDefaults opt cluster := by
  obtain ⟨ver, sec, conf, pod, vol⟩ := c
  simp only [ClusterSpec.UpdateDefaults, apply_ite ClusterSpec.PodSpec]
  split <;> split <;> split <;> split <;> rfl

/-- The events emitted by a run of the sync loop in which every listed unit
succeeds: one normal event per `created`/`updated` outcome, in order. -/
def updateEvents (comps : List component) : List Event :=
  comps.foldr
    (fun cp acc =>
      (if cp.syncFn.state = statusCreated ∨ cp.syncFn.state = statusUpdated then
         [{ severity := EventNormal, reason := cp.reasonUpdated, message := "" }]
       else []) ++ acc)
    []

/-- Embeds `updateEvents` contains no warning event. -/
theorem updateEvents_no_warning (comps : List component) :
    (updateEvents comps).filter (fun ev => ev.severity == EventWarning) = [] := by
  induction comps with
  | nil => rfl
  | cons cp rest ih =>
      simp only [updateEvents, List.foldr] at ih ⊢
      split <;> simp_all [EventNormal, EventWarning]

/-- The sync loop on a list of all-successful components: every unit is
invoked, the update events are emitted, and the returned error is nil. -/
theorem syncComponents_ok (comps : List component)
    (h : ∀ cp ∈ comps, cp.syncFn.err = none) :
    syncComponents comps = (comps.map component.alias', updateEvents comps, none) := by
  induction comps with
  | nil => rfl
  | cons cp rest ih =>
      have hcp : cp.syncFn.err = none := h cp (by simp)
      simp [syncComponents, hcp, updateEvents,
        ih (fun c hc => h c (List.mem_cons_of_mem cp hc))]

/-- The sync loop when the `k`-th component is the first to fail: the units
after the `k`-th are not invoked, the events are the earlier units' update
events followed by exactly one warning tagged with the failing unit's
failure reason, and the wrapped error is returned. -/
theorem syncComponents_fail (comps : List component) (k : Nat) (hk : k < comps.length)
    (e : String)
    (hbefore : ∀ j (hj : j < k), (comps.get ⟨j, hj.trans hk⟩).syncFn.err = none)
    (hfail : (comps.get ⟨k, hk⟩).syncFn.err = some e) :
    syncComponents comps =
      ((comps.take (k + 1)).map component.alias',
       updateEvents (comps.take k) ++
         [{ severity := EventWarning,
            reason := (comps.get ⟨k, hk⟩).reasonFailed,
            message := (comps.get ⟨k, hk⟩).name ++ " sync failed: " ++ e }],
       some ((comps.get ⟨k, hk⟩).name ++ " sync failed: " ++ e)) := by
  induction comps generalizing k with
  | nil => exact absurd hk (Nat.not_lt_zero k)
  | cons cp rest ih =>
      cases k with
      | zero =>
          simp only [List.get] at hfail
          simp [syncComponents, hfail, updateEvents]
      | succ k' =>
          have hcp : cp.syncFn.err = none := by
            have := hbefore 0 (Nat.succ_pos k')
            simpa using this
          have hk' : k' < rest.length := Nat.lt_of_succ_lt_succ hk
          have hbefore' : ∀ j (hj : j < k'),
              (rest.get ⟨j, hj.trans hk'⟩).syncFn.err = none := by
            intro j hj
            have := hbefore (j + 1) (Nat.succ_lt_succ hj)
            simpa using this
          have hfail' : (rest.get ⟨k', hk'⟩).syncFn.err = some e := by
            simpa using hfail
          simp only [syncComponents, hcp]
          rw [ih k' hk' hbefore' hfail']
          simp [updateEvents]

/-- Folding a step that appends one element per input is a map. -/
theorem foldl_step_append {α β : Type} (step : List β → α → List β) (g : α → β)
    (hstep : ∀ acc i, step acc i = acc ++ [g i]) (l : List α) (a : List β) :
    l.foldl step a = a ++ l.map g := by
  induction l generalizing a with
  | nil => simp
  | cons x xs ih => rw [List.foldl_cons, hstep, ih, List.map_cons]; simp

/-- The registration loop calls `Discover` for every replica index below
`ReadyNodes`, whatever errors the individual `Discover` calls return: the
loop body appends the call on both arms of its match on the error. -/
theorem registerNodes_eq (f : cFactory) :
    f.registerNodes =
      (List.range f.cluster.Status.ReadyNodes.toNat).map
        (fun (i : Nat) => (f.getHostForReplica (i : Int), MysqlPort)) := by
  unfold cFactory.registerNodes
  rw [foldl_step_append _ (fun (i : Nat) => (f.getHostForReplica (i : Int), MysqlPort))
    (fun acc i => by
      dsimp only
      cases f.discover (f.getHostForReplica (i : Int)) MysqlPort <;> rfl)]
  simp

/-- A string has length 0 iff it is empty (the source tests emptiness of
the orchestrator URI and of defaulted fields via `len`). -/
theorem string_length_eq_zero {s : String} : s.length = 0 ↔ s = "" := by
  constructor
  · intro h0
    cases s with
    | mk data =>
        simp [String.length] at h0
        simp [h0]
  · rintro rfl
    rfl

/-- Every resource kind's derived name is `<clusterName>-mysql`. -/
theorem getNameForResource_eq (c : MysqlCluster) (n : ResourceName) :
    c.GetNameForResource n = c.Name ++ "-mysql" := by
  unfold MysqlCluster.GetNameForResource GetNameForResource
  split <;> rfl

/-- Embeds `cFactory.Sync` when every unit succeeds: all five units are invoked,
only update events are emitted, nil is returned, and registration runs
exactly when an orchestrator URI is configured. -/
theorem sync_ok (f : cFactory) (h : ∀ cp ∈ f.getComponents, cp.syncFn.err = none) :
    f.Sync =
      { invoked := f.getComponents.map component.alias',
        events := updateEvents f.getComponents,
        discoverCalls :=
          if (f.cluster.Spec.GetOrcUri f.opt).length ≠ 0 then f.registerNodes
          else [],
        err := none } := by
  unfold cFactory.Sync
  rw [syncComponents_ok _ h]

/-! ## Claims -/

/-- C1 (evidence for the code bug): for a cluster whose memory request is
6 GiB — inside the spec table's `4 GiB < M ≤ 8 GiB` tier — and whose
configuration has no `innodb-log-file-size` key, applying defaults stores
the decimal string for 512 GiB (`549755813888`, the source's `512 * GB`
constant), not the 512 MiB (`536870912`) the spec's tier table states. -/
theorem c1_logfile_tier_6gib_is_512gb :
    (MysqlCluster.UpdateDefaults {}
        { Name := "foo",
          Spec := { PodSpec := { Resources :=
            { Requests := { memory := some (6 * GB) } } } } }).Spec.MysqlConf.lookup
        "innodb-log-file-size" = some "549755813888" ∧
    (549755813888 : Int) = 512 * GB ∧ (536870912 : Int) = 512 * MB ∧
    ("549755813888" : String) ≠ "536870912" := by
  refine ⟨rfl, by decide, by decide, by decide⟩

/-- C4 counterexample: the cluster definition carries no topology-authority
address at all (the modelled `ClusterSpec` — like the source's — has no such
field), so under the claim every definition would count as unconfigured;
yet with a non-empty orchestrator URI in the global option set the same
definition consults the authority (`GetOrcUri` is non-empty and
`GetMasterHost` adopts the authority's answer), while under an empty global
URI it does not. Configured-ness therefore does not depend on the
definition. -/
theorem c4_orc_uri_ignores_definition :
    ClusterSpec.GetOrcUri {} { OrchestratorUri := "http://orchestrator:3000" } =
      "http://orchestrator:3000" ∧
    MysqlCluster.GetMasterHost { Name := "foo" }
        { OrchestratorUri := "http://orchestrator:3000" }
        (.ok { Key := { Hostname := "orc-master" },
               SecondsBehindMaster := { Valid := false, Int64 := 0 } }) =
      "orc-master" ∧
    MysqlCluster.GetMasterHost { Name := "foo" }
        { OrchestratorUri := "http://orchestrator:3000" }
        (.ok { Key := { Hostname := "orc-master" },
               SecondsBehindMaster := { Valid := false, Int64 := 0 } }) ≠
      MysqlCluster.GetPodHostName { Name := "foo" } 0 ∧
    ClusterSpec.GetOrcUri {} { OrchestratorUri := "" } = "" := by
  refine ⟨rfl, rfl, by decide, rfl⟩

/-- C4 (amended): whether a topology authority is configured is decided by
the orchestrator URI of the process-wide global option set, not by the
cluster definition: `GetOrcUri` ignores its receiver and returns the global
URI, so with an empty global URI resolution falls back to the static
default, and with a non-empty global URI the authority's answer is used. -/
theorem c4_orc_uri_from_global_options (c : MysqlCluster) (c' : ClusterSpec)
    (opt : Options) (mres : Except String Instance) :
    c.Spec.GetOrcUri opt = opt.OrchestratorUri ∧
    c.Spec.GetOrcUri opt = c'.GetOrcUri opt ∧
    (opt.OrchestratorUri = "" → c.GetMasterHost opt mres = c.GetPodHostName 0) ∧
    (∀ inst, opt.OrchestratorUri ≠ "" →
      c.GetMasterHost opt (.ok inst) = inst.Key.Hostname) := by
  refine ⟨rfl, rfl, ?_, ?_⟩
  · intro huri
    unfold MysqlCluster.GetMasterHost ClusterSpec.GetOrcUri
    simp [huri]
  · intro inst huri
    unfold MysqlCluster.GetMasterHost ClusterSpec.GetOrcUri
    have h : opt.OrchestratorUri.length ≠ 0 := fun h0 =>
      huri (string_length_eq_zero.mp h0)
    simp [h]

/-- C4 amended witness at concrete inputs. -/
theorem c4_orc_uri_from_global_options_witness :
    MysqlCluster.GetMasterHost { Name := "foo" } { OrchestratorUri := "" }
        (.ok { Key := { Hostname := "ignored" },
               SecondsBehindMaster := { Valid := false, Int64 := 0 } }) =
      MysqlCluster.GetPodHostName { Name := "foo" } 0 ∧
    MysqlCluster.GetMasterHost { Name := "foo" } { OrchestratorUri := "http://orc" }
        (.ok { Key := { Hostname := "orc-master" },
               SecondsBehindMaster := { Valid := false, Int64 := 0 } }) =
      "orc-master" := by
  constructor
  · exact (c4_orc_uri_from_global_options { Name := "foo" } {} { OrchestratorUri := "" }
      (.ok { Key := { Hostname := "ignored" },
             SecondsBehindMaster := { Valid := false, Int64 := 0 } })).2.2.1 rfl
  · exact (c4_orc_uri_from_global_options { Name := "foo" } {}
      { OrchestratorUri := "http://orc" }
      (.ok { Key := { Hostname := "orc-master" },
             SecondsBehindMaster := { Valid := false, Int64 := 0 } })).2.2.2
      { Key := { Hostname := "orc-master" },
        SecondsBehindMaster := { Valid := false, Int64 := 0 } } (by decide)

/-- C9 counterexample: for the cluster named `foo` in scope `prod`, the
topology resolver's static-default hostname for member 0 is
`foo-mysql-0.foo-mysql` — it does not carry the `.prod` scope suffix the
claim requires of every derived member hostname. -/
theorem c9_pod_hostname_missing_scope :
    MysqlCluster.GetPodHostName { Name := "foo", Ns := "prod" } 0 =
      "foo-mysql-0.foo-mysql" ∧
    MysqlCluster.GetPodHostName { Name := "foo", Ns := "prod" } 0 ≠
      "foo-mysql-0.foo-mysql.prod" := by
  refine ⟨rfl, by decide⟩

/-- C9 (amended): the hostnames used for topology registration have the
form `<workloadName>-<ordinal>.<networkEndpointName>.<scope>` (with
workload and network-endpoint name both `<clusterName>-mysql`), while the
hostnames returned by the topology resolver's static defaults
(`GetPodHostName`) omit the scope:
`<workloadName>-<ordinal>.<networkEndpointName>`. -/
theorem c9_hostname_forms :
    (∀ (f : cFactory) (hp : String × Int), hp ∈ (f.Sync).discoverCalls →
      ∃ i : Nat, hp.1 = f.cluster.Name ++ "-mysql" ++ "-" ++ toString (i : Int) ++
        "." ++ (f.cluster.Name ++ "-mysql") ++ "." ++ f.cluster.Ns) ∧
    (∀ (c : MysqlCluster) (p : Int),
      c.GetPodHostName p =
        c.Name ++ "-mysql" ++ "-" ++ toString p ++ "." ++ (c.Name ++ "-mysql")) := by
  constructor
  · intro f hp hmem
    unfold cFactory.Sync at hmem
    dsimp only at hmem
    cases herr : (syncComponents f.getComponents).2.2 with
    | some e => rw [herr] at hmem; simp at hmem
    | none =>
        rw [herr] at hmem
        dsimp only at hmem
        by_cases huri : (f.cluster.Spec.GetOrcUri f.opt).length ≠ 0
        · rw [if_pos huri, registerNodes_eq] at hmem
          obtain ⟨i, _, hi⟩ := List.mem_map.mp hmem
          refine ⟨i, ?_⟩
          rw [← hi]
          show f.getHostForReplica (i : Int) =
            f.cluster.Name ++ "-mysql" ++ "-" ++ toString (i : Int) ++ "." ++
              (f.cluster.Name ++ "-mysql") ++ "." ++ f.cluster.Ns
          unfold cFactory.getHostForReplica
          rw [getNameForResource_eq, getNameForResource_eq]
        · rw [if_neg huri] at hmem; simp at hmem
  · intro c p
    unfold MysqlCluster.GetPodHostName
    rw [getNameForResource_eq, getNameForResource_eq]

/-- C9 amended witness: a concrete registration call and a concrete
resolver default. -/
theorem c9_hostname_forms_witness :
    (∃ i : Nat, (("foo-mysql-0.foo-mysql.prod" : String), MysqlPort).1 =
      "foo" ++ "-mysql" ++ "-" ++ toString (i : Int) ++ "." ++
        ("foo" ++ "-mysql") ++ "." ++ "prod") ∧
    MysqlCluster.GetPodHostName { Name := "bar" } 7 =
      "bar" ++ "-mysql" ++ "-" ++ toString (7 : Int) ++ "." ++ ("bar" ++ "-mysql") := by
  constructor
  · exact c9_hostname_forms.1
      { cluster := { Name := "foo", Ns := "prod", Status := { ReadyNodes := 1 } },
        opt := { OrchestratorUri := "http://orc" } }
      ("foo-mysql-0.foo-mysql.prod", MysqlPort) (by decide)
  · exact c9_hostname_forms.2 { Name := "bar" } 7

/-- C5: with no topology authority configured, `GetMasterHost` returns
member 0's hostname regardless of ready-count, and `GetHealtySlaveHost`
returns member `ReadyNodes - 1`'s hostname when at least one member is
ready and member 0's hostname when none is; and independently of
configuration, a failed authority query keeps the static default. Both
resolvers are total by type: they return a `String` on every path and
have no error result. -/
theorem c5_resolver_fallback_total (c : MysqlCluster) (opt : Options)
    (mres : Except String Instance) (rres : Except String (List Instance)) :
    (opt.OrchestratorUri = "" →
      c.GetMasterHost opt mres = c.GetPodHostName 0 ∧
      (1 ≤ c.Status.ReadyNodes →
        c.GetHealtySlaveHost opt rres = c.GetPodHostName (c.Status.ReadyNodes - 1)) ∧
      (c.Status.ReadyNodes = 0 → c.GetHealtySlaveHost opt rres = c.GetPodHostName 0)) ∧
    (∀ e : String,
      c.GetMasterHost opt (.error e) = c.GetPodHostName 0 ∧
      c.GetHealtySlaveHost opt (.error e) =
        if c.Status.ReadyNodes < 1 then c.GetPodHostName 0
        else c.GetPodHostName (c.Status.ReadyNodes - 1)) := by
  constructor
  · intro huri
    refine ⟨?_, ?_, ?_⟩
    · unfold MysqlCluster.GetMasterHost ClusterSpec.GetOrcUri
      simp [huri]
    · intro hready
      unfold MysqlCluster.GetHealtySlaveHost ClusterSpec.GetOrcUri
      rw [if_neg (by omega)]
      simp [huri]
    · intro hready
      unfold MysqlCluster.GetHealtySlaveHost
      rw [if_pos (by omega)]
  · intro e
    constructor
    · unfold MysqlCluster.GetMasterHost ClusterSpec.GetOrcUri
      split <;> rfl
    · unfold MysqlCluster.GetHealtySlaveHost ClusterSpec.GetOrcUri
      by_cases hready : c.Status.ReadyNodes < 1
      · rw [if_pos hready, if_pos hready]
      · rw [if_neg hready, if_neg hready]
        split <;> rfl

/-- C5 witness: ready-count 3 resolves the secondary to member 2 and the
primary to member 0 even when the (configured) authority's queries fail;
ready-count 0 falls back to member 0. -/
theorem c5_resolver_fallback_total_witness :
    MysqlCluster.GetMasterHost { Name := "foo", Status := { ReadyNodes := 3 } } {}
        (.error "unreachable") =
      MysqlCluster.GetPodHostName { Name := "foo", Status := { ReadyNodes := 3 } } 0 ∧
    MysqlCluster.GetHealtySlaveHost { Name := "foo", Status := { ReadyNodes := 3 } } {}
        (.ok []) =
      MysqlCluster.GetPodHostName { Name := "foo", Status := { ReadyNodes := 3 } } 2 ∧
    MysqlCluster.GetHealtySlaveHost { Name := "foo", Status := { ReadyNodes := 0 } } {}
        (.ok []) =
      MysqlCluster.GetPodHostName { Name := "foo", Status := { ReadyNodes := 0 } } 0 := by
  refine ⟨?_, ?_, ?_⟩
  · exact ((c5_resolver_fallback_total _ _ (.error "unreachable") (.ok [])).1 rfl).1
  · have h := ((c5_resolver_fallback_total { Name := "foo", Status := { ReadyNodes := 3 } }
      {} (.error "unreachable") (.ok [])).1 rfl).2.1 (by decide)
    simpa using h
  · exact ((c5_resolver_fallback_total _ _ (.error "unreachable") (.ok [])).1 rfl).2.2 rfl

/-- C6: when all five sync units succeed and an orchestrator URI is
configured, `Sync` attempts a `Discover` registration for each of the
first `ReadyNodes` members and returns nil. The factory's `discover`
outcome function is universally quantified and absent from the
conclusion, so failed registrations neither prevent the remaining
attempts nor change the nil return. -/
theorem c6_registration_best_effort (f : cFactory)
    (hok : ∀ cp ∈ f.getComponents, cp.syncFn.err = none)
    (huri : (f.cluster.Spec.GetOrcUri f.opt).length ≠ 0) :
    (f.Sync).discoverCalls =
      (List.range f.cluster.Status.ReadyNodes.toNat).map
        (fun (i : Nat) => (f.getHostForReplica (i : Int), MysqlPort)) ∧
    (f.Sync).err = none := by
  rw [sync_ok f hok]
  refine ⟨?_, rfl⟩
  show (if (f.cluster.Spec.GetOrcUri f.opt).length ≠ 0 then f.registerNodes else []) = _
  rw [if_pos huri, registerNodes_eq]

/-- Concrete factory for the C6 witness: three ready members, a configured
orchestrator URI, and a `Discover` stub failing for the middle host. -/
def c6f : cFactory :=
  { cluster := { Name := "foo", Ns := "default", Status := { ReadyNodes := 3 } },
    opt := { OrchestratorUri := "http://orc:3000" },
    discover := fun h _ =>
      if h = "foo-mysql-1.foo-mysql.default" then some "connection refused" else none }

/-- C6 witness: with `Discover` failing for one of the three ready hosts,
all three hosts are still attempted and `Sync` returns nil. -/
theorem c6_registration_best_effort_witness :
    (c6f.Sync).discoverCalls =
      [("foo-mysql-0.foo-mysql.default", MysqlPort),
       ("foo-mysql-1.foo-mysql.default", MysqlPort),
       ("foo-mysql-2.foo-mysql.default", MysqlPort)] ∧
    (c6f.Sync).err = none := by
  have h := c6_registration_best_effort c6f (by intro cp hcp; fin_cases hcp <;> rfl)
    (by decide)
  exact ⟨h.1.trans (by decide), h.2⟩

/-- The secondary-selection fold leaves the accumulator unchanged when no
replica has a valid lag ≤ 5. -/
theorem fold_pick_no_qual (l : List Instance) (a : String)
    (h : ∀ r ∈ l, ¬(r.SecondsBehindMaster.Valid ∧ r.SecondsBehindMaster.Int64 ≤ 5)) :
    l.foldl
      (fun host r =>
        if r.SecondsBehindMaster.Valid ∧ r.SecondsBehindMaster.Int64 ≤ 5
        then r.Key.Hostname
        else host)
      a = a := by
  induction l generalizing a with
  | nil => rfl
  | cons r rest ih =>
      simp only [List.foldl]
      rw [if_neg (h r (by simp))]
      exact ih a (fun x hx => h x (List.mem_cons_of_mem r hx))

/-- The secondary-selection fold returns the hostname of the last replica
with a valid lag ≤ 5: if index `i` qualifies and no later index does, the
fold's result is instance `i`'s hostname, whatever the accumulator. -/
theorem fold_pick_last_qual (l : List Instance) (a : String) (i : Nat)
    (hi : i < l.length)
    (hq : (l.get ⟨i, hi⟩).SecondsBehindMaster.Valid ∧
      (l.get ⟨i, hi⟩).SecondsBehindMaster.Int64 ≤ 5)
    (hafter : ∀ (j : Nat) (hj : j < l.length), i < j →
      ¬((l.get ⟨j, hj⟩).SecondsBehindMaster.Valid ∧
        (l.get ⟨j, hj⟩).SecondsBehindMaster.Int64 ≤ 5)) :
    l.foldl
      (fun host r =>
        if r.SecondsBehindMaster.Valid ∧ r.SecondsBehindMaster.Int64 ≤ 5
        then r.Key.Hostname
        else host)
      a = (l.get ⟨i, hi⟩).Key.Hostname := by
  induction l generalizing a i with
  | nil => exact absurd hi (Nat.not_lt_zero i)
  | cons r rest ih =>
      cases i with
      | zero =>
          simp only [List.get] at hq ⊢
          simp only [List.foldl]
          rw [if_pos hq]
          apply fold_pick_no_qual
          intro x hx
          obtain ⟨⟨j, hj⟩, hjx⟩ := List.mem_iff_get.mp hx
          subst hjx
          have := hafter (j + 1) (Nat.succ_lt_succ hj) (Nat.succ_pos j)
          simpa using this
      | succ i' =>
          have hi' : i' < rest.length := Nat.lt_of_succ_lt_succ hi
          simp only [List.get] at hq ⊢
          simp only [List.foldl]
          exact ih _ i' hi' hq
            (fun j hj hij => by
              have := hafter (j + 1) (Nat.succ_lt_succ hj) (Nat.succ_lt_succ hij)
              simpa using this)

/-- C3 counterexample: with a configured authority, a successful `Replicas`
query, and a qualifying instance (valid lag 2 ≤ 5), a cluster whose
ready-count is 0 still returns the member-0 default, not the qualifying
instance's hostname: the `ReadyNodes < 1` branch returns before the
authority is consulted. -/
theorem c3_ready_zero_ignores_authority :
    ClusterSpec.GetOrcUri {} { OrchestratorUri := "http://orc:3000" } ≠ "" ∧
    ((true : Bool) ∧ (2 : Int) ≤ 5) ∧
    MysqlCluster.GetHealtySlaveHost { Name := "foo", Status := { ReadyNodes := 0 } }
        { OrchestratorUri := "http://orc:3000" }
        (.ok [{ Key := { Hostname := "qual-host" },
                SecondsBehindMaster := { Valid := true, Int64 := 2 } }]) =
      "foo-mysql-0.foo-mysql" ∧
    ("foo-mysql-0.foo-mysql" : String) ≠ "qual-host" := by
  refine ⟨by decide, by decide, rfl, by decide⟩

/-- C3 (amended): for every cluster definition with a topology authority
configured **and ready-count ≥ 1** (with ready-count 0 the authority is
not consulted and the member-0 default is returned, see the
counterexample), when the authority's `Replicas` query succeeds and index
`i` is the last instance with known, non-null replication lag ≤ 5 seconds,
the resolver returns instance `i`'s hostname; when no instance qualifies it
returns the static default hostname (member `ReadyNodes - 1`). -/
theorem c3_last_qualifying_wins (c : MysqlCluster) (opt : Options)
    (l : List Instance) (hready : 1 ≤ c.Status.ReadyNodes)
    (huri : (c.Spec.GetOrcUri opt).length ≠ 0) :
    (∀ (i : Nat) (hi : i < l.length),
      ((l.get ⟨i, hi⟩).SecondsBehindMaster.Valid ∧
        (l.get ⟨i, hi⟩).SecondsBehindMaster.Int64 ≤ 5) →
      (∀ (j : Nat) (hj : j < l.length), i < j →
        ¬((l.get ⟨j, hj⟩).SecondsBehindMaster.Valid ∧
          (l.get ⟨j, hj⟩).SecondsBehindMaster.Int64 ≤ 5)) →
      c.GetHealtySlaveHost opt (.ok l) = (l.get ⟨i, hi⟩).Key.Hostname) ∧
    ((∀ r ∈ l, ¬(r.SecondsBehindMaster.Valid ∧ r.SecondsBehindMaster.Int64 ≤ 5)) →
      c.GetHealtySlaveHost opt (.ok l) =
        c.GetPodHostName (c.Status.ReadyNodes - 1)) := by
  have hunfold : c.GetHealtySlaveHost opt (.ok l) =
      l.foldl
        (fun host r =>
          if r.SecondsBehindMaster.Valid ∧ r.SecondsBehindMaster.Int64 ≤ 5
          then r.Key.Hostname
          else host)
        (c.GetPodHostName (c.Status.ReadyNodes - 1)) := by
    unfold MysqlCluster.GetHealtySlaveHost
    rw [if_neg (by omega)]
    dsimp only
    rw [if_pos huri]
  constructor
  · intro i hi hq hafter
    rw [hunfold]
    exact fold_pick_last_qual l _ i hi hq hafter
  · intro hnone
    rw [hunfold]
    exact fold_pick_no_qual l _ hnone

/-- C3 amended witness: the spec's own example — replicas with lags 3s then
2s (both qualifying, in that order) resolve to the second instance's
hostname. -/
theorem c3_last_qualifying_wins_witness :
    MysqlCluster.GetHealtySlaveHost { Name := "foo", Status := { ReadyNodes := 3 } }
        { OrchestratorUri := "http://orc:3000" }
        (.ok [{ Key := { Hostname := "host-a" },
                SecondsBehindMaster := { Valid := true, Int64 := 3 } },
              { Key := { Hostname := "host-b" },
                SecondsBehindMaster := { Valid := true, Int64 := 2 } }]) =
      "host-b" := by
  have h := (c3_last_qualifying_wins
    { Name := "foo", Status := { ReadyNodes := 3 } }
    { OrchestratorUri := "http://orc:3000" }
    [{ Key := { Hostname := "host-a" },
       SecondsBehindMaster := { Valid := true, Int64 := 3 } },
     { Key := { Hostname := "host-b" },
       SecondsBehindMaster := { Valid := true, Int64 := 2 } }]
    (by decide) (by decide)).1 1 (by decide) (by decide)
    (fun j hj hij => by
      simp only [List.length_cons, List.length_nil] at hj
      exact absurd hij (by omega))
  exact h

/-- C2: in each reconciliation call, if the `k`-th unit of the fixed order
(secret, configuration, network endpoint, workload, backup schedule) is the
first whose sync operation returns a non-nil error, then no unit after the
`k`-th is invoked, exactly one warning event is emitted — tagged with the
failing unit's failure-event-kind and carrying the wrapped message — and
the error wrapping the failing unit's resource identifier is returned; if
every unit succeeds, nil is returned. -/
theorem c2_sync_fail_fast :
    (∀ (f : cFactory) (k : Nat) (hk : k < f.getComponents.length) (e : String),
      (∀ (j : Nat) (hj : j < k),
        (f.getComponents.get ⟨j, hj.trans hk⟩).syncFn.err = none) →
      (f.getComponents.get ⟨k, hk⟩).syncFn.err = some e →
      ((f.Sync).invoked = (f.getComponents.take (k + 1)).map component.alias' ∧
       (f.Sync).events.filter (fun ev => ev.severity == EventWarning) =
         [{ severity := EventWarning,
            reason := (f.getComponents.get ⟨k, hk⟩).reasonFailed,
            message := (f.getComponents.get ⟨k, hk⟩).name ++ " sync failed: " ++ e }] ∧
       (f.Sync).err = some ((f.getComponents.get ⟨k, hk⟩).name ++ " sync failed: " ++ e))) ∧
    (∀ f : cFactory,
      (∀ cp ∈ f.getComponents, cp.syncFn.err = none) → (f.Sync).err = none) := by
  constructor
  · intro f k hk e hbefore hfail
    have hsync : f.Sync =
        { invoked := (f.getComponents.take (k + 1)).map component.alias',
          events := updateEvents (f.getComponents.take k) ++
            [{ severity := EventWarning,
               reason := (f.getComponents.get ⟨k, hk⟩).reasonFailed,
               message := (f.getComponents.get ⟨k, hk⟩).name ++ " sync failed: " ++ e }],
          discoverCalls := [],
          err := some ((f.getComponents.get ⟨k, hk⟩).name ++ " sync failed: " ++ e) } := by
      unfold cFactory.Sync
      rw [syncComponents_fail f.getComponents k hk e hbefore hfail]
    rw [hsync]
    refine ⟨rfl, ?_, rfl⟩
    show (updateEvents (f.getComponents.take k) ++ _).filter _ = _
    rw [List.filter_append, updateEvents_no_warning]
    simp
  · intro f h
    rw [sync_ok f h]

/-- Concrete factory for the C2 witness: the third unit (network endpoint /
headless service) fails with error `boom`; the first two units succeed with
outcome `created` and `up-to-date` respectively. -/
def c2f : cFactory :=
  { cluster := { Name := "foo" },
    opt := {},
    syncClusterSecret := { state := statusCreated },
    syncHeadlessService := { state := statusFailed, err := some "boom" } }

/-- C2 witness (the spec's own fail-fast scenario): with the third unit
failing, only the first three units are invoked, exactly one warning —
tagged with the network-endpoint failure-kind — is emitted, and the wrapped
error is returned. -/
theorem c2_sync_fail_fast_witness :
    (c2f.Sync).invoked = ["cluster-secret", "config-map", "headless-service"] ∧
    (c2f.Sync).events.filter (fun ev => ev.severity == EventWarning) =
      [{ severity := EventWarning, reason := EventReasonServiceFailed,
         message := "foo-mysql sync failed: boom" }] ∧
    (c2f.Sync).err = some "foo-mysql sync failed: boom" := by
  have h := c2_sync_fail_fast.1 c2f 2 (by decide) "boom"
    (fun j hj => by interval_cases j <;> rfl) rfl
  exact ⟨h.1.trans (by decide), h.2.1.trans (by decide), h.2.2.trans (by decide)⟩

/-- C8: for every cluster definition whose configuration has no
`innodb-buffer-pool-size` key and whose memory request `M` is present,
applying defaults sets `innodb-buffer-pool-size` to 128 MiB when
`M < 1 GiB`, to `M × 0.5` when `1 GiB ≤ M ≤ 4 GiB`, and to `M × 0.75` when
`M > 4 GiB` (the float products truncated to whole bytes), formatted as a
decimal byte-count string. -/
theorem c8_buffer_pool_tiers (opt : Options) (cluster : MysqlCluster)
    (c : ClusterSpec) (M : Int)
    (hmem : c.PodSpec.Resources.Requests.memory = some M)
    (habs : c.MysqlConf.lookup "innodb-buffer-pool-size" = none) :
    (c.UpdateDefaults opt cluster).MysqlConf.lookup "innodb-buffer-pool-size" =
      some (toString (if M < GB then 128 * MB
        else if M ≤ 4 * GB then M / 2
        else 3 * M / 4)) := by
  have hres := @podSpec_updateDefaults_resources opt cluster c.PodSpec
    (count_ne_zero_of_memory hmem)
  have hmv : (c.PodSpec.UpdateDefaults opt cluster).Resources.Requests.memoryValue
      = M := by
    rw [hres]
    simp [ResourceList.memoryValue, hmem]
  rw [clusterSpec_updateDefaults_conf]
  simp only [hmv, habs, Option.isNone_none, if_true]
  split
  · rw [lookup_append, lookup_append, habs]
    rfl
  · rw [lookup_append, habs]
    rfl

/-- C8 witness at the spec's example tiers: 512 MiB → 128 MiB,
2 GiB → 1 GiB, 32 GiB → 24 GiB. -/
theorem c8_buffer_pool_tiers_witness :
    (ClusterSpec.UpdateDefaults {} {}
        { PodSpec := { Resources := { Requests := { memory := some (512 * MB) } } } }).MysqlConf.lookup
      "innodb-buffer-pool-size" = some "134217728" ∧
    (ClusterSpec.UpdateDefaults {} {}
        { PodSpec := { Resources := { Requests := { memory := some (2 * GB) } } } }).MysqlConf.lookup
      "innodb-buffer-pool-size" = some "1073741824" ∧
    (ClusterSpec.UpdateDefaults {} {}
        { PodSpec := { Resources := { Requests := { memory := some (32 * GB) } } } }).MysqlConf.lookup
      "innodb-buffer-pool-size" = some "25769803776" := by
  refine ⟨?_, ?_, ?_⟩
  · exact (c8_buffer_pool_tiers {} {}
      { PodSpec := { Resources := { Requests := { memory := some (512 * MB) } } } }
      (512 * MB) rfl rfl).trans (by decide)
  · exact (c8_buffer_pool_tiers {} {}
      { PodSpec := { Resources := { Requests := { memory := some (2 * GB) } } } }
      (2 * GB) rfl rfl).trans (by decide)
  · exact (c8_buffer_pool_tiers {} {}
      { PodSpec := { Resources := { Requests := { memory := some (32 * GB) } } } }
      (32 * GB) rfl rfl).trans (by decide)

/-- C10: with empty resource requests and neither sizing key present,
applying defaults first installs the 1 GiB memory-request floor and then
computes both sizing keys from that floor: buffer pool
`536870912` (0.5 × 1 GiB) and log file `134217728` (128 MiB). -/
theorem c10_empty_requests_floor_sizing (c : MysqlCluster) (opt : Options)
    (hreq : c.Spec.PodSpec.Resources.Requests.count = 0)
    (hb : c.Spec.MysqlConf.lookup "innodb-buffer-pool-size" = none)
    (hl : c.Spec.MysqlConf.lookup "innodb-log-file-size" = none) :
    (c.UpdateDefaults opt).Spec.PodSpec.Resources.Requests.memory =
      some resourceRequestMemoryValue ∧
    (c.UpdateDefaults opt).Spec.MysqlConf.lookup "innodb-buffer-pool-size" =
      some "536870912" ∧
    (c.UpdateDefaults opt).Spec.MysqlConf.lookup "innodb-log-file-size" =
      some "134217728" := by
  have hfloor := @podSpec_updateDefaults_resources_of_empty opt c c.Spec.PodSpec hreq
  have hmv : (c.Spec.PodSpec.UpdateDefaults opt c).Resources.Requests.memoryValue
      = GB := by
    rw [hfloor]
    rfl
  refine ⟨?_, ?_, ?_⟩
  · show (c.Spec.UpdateDefaults opt c).PodSpec.Resources.Requests.memory = _
    rw [clusterSpec_updateDefaults_podSpec, hfloor]
  · show (c.Spec.UpdateDefaults opt c).MysqlConf.lookup _ = _
    rw [clusterSpec_updateDefaults_conf]
    simp only [hmv, hb, Option.isNone_none, if_true]
    split
    · rw [lookup_append, lookup_append, hb]
      rfl
    · rw [lookup_append, hb]
      rfl
  · show (c.Spec.UpdateDefaults opt c).MysqlConf.lookup _ = _
    rw [clusterSpec_updateDefaults_conf]
    simp only [hmv, hb, Option.isNone_none, if_true]
    rw [if_pos (by rw [lookup_append, hl]; rfl), lookup_append, lookup_append, hl]
    rfl

/-- C10 witness: the fully-unset cluster definition ends with exactly the
floor-derived sizing values. -/
theorem c10_empty_requests_floor_sizing_witness :
    (MysqlCluster.UpdateDefaults {} {}).Spec.PodSpec.Resources.Requests.memory =
      some resourceRequestMemoryValue ∧
    (MysqlCluster.UpdateDefaults {} {}).Spec.MysqlConf.lookup
      "innodb-buffer-pool-size" = some "536870912" ∧
    (MysqlCluster.UpdateDefaults {} {}).Spec.MysqlConf.lookup
      "innodb-log-file-size" = some "134217728" :=
  c10_empty_requests_floor_sizing {} {} rfl rfl rfl

attribute [ext] PodSpec VolumeSpec ClusterSpec

/-- A resource list has `len` 0 iff every entry is absent. -/
theorem count_eq_zero_iff (rl : ResourceList) :
    rl.count = 0 ↔ rl.cpu = none ∧ rl.memory = none ∧ rl.storage = none := by
  obtain ⟨c, m, s⟩ := rl
  cases c <;> cases m <;> cases s <;> simp [ResourceList.count]

/-- The pull policy produced by `PodSpec.UpdateDefaults`. -/
theorem podSpec_updateDefaults_ipp (opt : Options) (cl : MysqlCluster) (ps : PodSpec) :
    (ps.UpdateDefaults opt cl).ImagePullPolicy =
      if ps.ImagePullPolicy.length = 0 then opt.ImagePullPolicy
      else ps.ImagePullPolicy := by
  obtain ⟨ipp, res, aff⟩ := ps
  simp only [PodSpec.UpdateDefaults]
  split_ifs <;> simp_all

/-- The resources produced by `PodSpec.UpdateDefaults`. -/
theorem podSpec_updateDefaults_resources_eq (opt : Options) (cl : MysqlCluster)
    (ps : PodSpec) :
    (ps.UpdateDefaults opt cl).Resources =
      if ps.Resources.Requests.count = 0 then
        { Requests :=
            { cpu := some resourceRequestCPU,
              memory := some resourceRequestMemoryValue } }
      else ps.Resources := by
  obtain ⟨ipp, res, aff⟩ := ps
  simp only [PodSpec.UpdateDefaults]
  split_ifs <;> simp_all

/-- The affinity produced by `PodSpec.UpdateDefaults`. -/
theorem podSpec_updateDefaults_affinity_eq (opt : Options) (cl : MysqlCluster)
    (ps : PodSpec) :
    (ps.UpdateDefaults opt cl).Affinity =
      if ps.Affinity.PodAntiAffinity.isNone = true then
        { PodAntiAffinity := some
            { PreferredDuringSchedulingIgnoredDuringExecution :=
                [{ Weight := 100,
                   TopologyKey := "kubernetes.io/hostname",
                   MatchLabels := cl.GetLabels }] } }
      else ps.Affinity := by
  obtain ⟨ipp, res, aff⟩ := ps
  simp only [PodSpec.UpdateDefaults]
  split_ifs <;> simp_all

/-- Embeds `PodSpec.UpdateDefaults` is idempotent (for any second cluster argument
with the same labels, which is all the function reads of the cluster). -/
theorem podSpec_updateDefaults_idem (opt : Options) (cl cl' : MysqlCluster)
    (ps : PodSpec) (hl : cl'.GetLabels = cl.GetLabels) :
    (ps.UpdateDefaults opt cl).UpdateDefaults opt cl' = ps.UpdateDefaults opt cl := by
  apply PodSpec.ext
  · rw [podSpec_updateDefaults_ipp, podSpec_updateDefaults_ipp]
    by_cases h1 : ps.ImagePullPolicy.length = 0 <;>
      by_cases h2 : opt.ImagePullPolicy.length = 0 <;> simp [h1, h2]
  · rw [podSpec_updateDefaults_resources_eq, podSpec_updateDefaults_resources_eq]
    by_cases h1 : ps.Resources.Requests.count = 0
    · obtain ⟨hc, hm, hs⟩ := (count_eq_zero_iff _).mp h1
      simp [h1, hc, hm, hs, ResourceList.count]
    · simp [h1]
  · rw [podSpec_updateDefaults_affinity_eq, podSpec_updateDefaults_affinity_eq, hl]
    by_cases h1 : ps.Affinity.PodAntiAffinity.isNone = true <;> simp [h1]

/-- The access modes produced by `VolumeSpec.UpdateDefaults`. -/
theorem volumeSpec_updateDefaults_accessModes (vs : VolumeSpec) :
    vs.UpdateDefaults.AccessModes =
      if vs.AccessModes.length = 0 then ["ReadWriteOnce"] else vs.AccessModes := by
  obtain ⟨am, res⟩ := vs
  simp only [VolumeSpec.UpdateDefaults]
  split_ifs <;> simp_all

/-- The resources produced by `VolumeSpec.UpdateDefaults`. -/
theorem volumeSpec_updateDefaults_resources (vs : VolumeSpec) :
    vs.UpdateDefaults.Resources =
      if vs.Resources.Requests.count = 0 then
        { Requests := { storage := some resourceStorage } }
      else vs.Resources := by
  obtain ⟨am, res⟩ := vs
  simp only [VolumeSpec.UpdateDefaults]
  split_ifs <;> simp_all

/-- Embeds `VolumeSpec.UpdateDefaults` is idempotent. -/
theorem volumeSpec_updateDefaults_idem (vs : VolumeSpec) :
    vs.UpdateDefaults.UpdateDefaults = vs.UpdateDefaults := by
  apply VolumeSpec.ext
  · rw [volumeSpec_updateDefaults_accessModes, volumeSpec_updateDefaults_accessModes]
    by_cases h1 : vs.AccessModes.length = 0 <;> simp [h1]
  · rw [volumeSpec_updateDefaults_resources, volumeSpec_updateDefaults_resources]
    by_cases h1 : vs.Resources.Requests.count = 0
    · obtain ⟨hc, hm, hs⟩ := (count_eq_zero_iff _).mp h1
      simp [h1, hc, hm, hs, ResourceList.count]
    · simp [h1]

/-- The engine version produced by `ClusterSpec.UpdateDefaults`. -/
theorem clusterSpec_updateDefaults_mysqlVersion (opt : Options)
    (cluster : MysqlCluster) (c : ClusterSpec) :
    (c.UpdateDefaults opt cluster).MysqlVersion =
      if c.MysqlVersion.length = 0 then opt.MysqlImageTag else c.MysqlVersion := by
  obtain ⟨ver, sec, conf, pod, vol⟩ := c
  simp only [ClusterSpec.UpdateDefaults, apply_ite ClusterSpec.MysqlVersion]
  split <;> split <;> split <;> split <;> rfl

/-- Embeds `ClusterSpec.UpdateDefaults` never touches the secret name. -/
theorem clusterSpec_updateDefaults_secretName (opt : Options)
    (cluster : MysqlCluster) (c : ClusterSpec) :
    (c.UpdateDefaults opt cluster).SecretName = c.SecretName := by
  obtain ⟨ver, sec, conf, pod, vol⟩ := c
  simp only [ClusterSpec.UpdateDefaults, apply_ite ClusterSpec.SecretName]
  split <;> split <;> split <;> split <;> rfl

/-- The volume spec produced by `ClusterSpec.UpdateDefaults`. -/
theorem clusterSpec_updateDefaults_volumeSpec (opt : Options)
    (cluster : MysqlCluster) (c : ClusterSpec) :
    (c.UpdateDefaults opt cluster).VolumeSpec = c.VolumeSpec.UpdateDefaults := by
  obtain ⟨ver, sec, conf, pod, vol⟩ := c
  simp only [ClusterSpec.UpdateDefaults, apply_ite ClusterSpec.VolumeSpec]
  split <;> split <;> split <;> split <;> rfl

/-- Appending a key absent from the front list makes it found with the
appended value. -/
theorem lookup_append_self (m : MysqlConf) (k v : String)
    (h : m.lookup k = none) : (m ++ [(k, v)]).lookup k = some v := by
  rw [lookup_append, h]
  simp [List.lookup]

/-- Appending entries preserves a present key. -/
theorem lookup_isSome_append (m m' : MysqlConf) (k : String)
    (h : (m.lookup k).isSome = true) : ((m ++ m').lookup k).isSome = true := by
  rw [lookup_append]
  cases hm : m.lookup k with
  | none => rw [hm] at h; simp at h
  | some w => simp

/-- A non-`isNone` option is `isSome`. -/
theorem isSome_of_not_isNone {o : Option String}
    (h : ¬o.isNone = true) : o.isSome = true := by
  cases o with
  | none => simp at h
  | some v => rfl

/-- After `ClusterSpec.UpdateDefaults`, both sizing keys are present. -/
theorem clusterSpec_updateDefaults_conf_keys (opt : Options)
    (cluster : MysqlCluster) (c : ClusterSpec) :
    ((c.UpdateDefaults opt cluster).MysqlConf.lookup
      "innodb-buffer-pool-size").isSome = true ∧
    ((c.UpdateDefaults opt cluster).MysqlConf.lookup
      "innodb-log-file-size").isSome = true := by
  rw [clusterSpec_updateDefaults_conf]
  dsimp only
  by_cases hbuf : (c.MysqlConf.lookup "innodb-buffer-pool-size").isNone = true
  · rw [if_pos hbuf]
    have hb1 := lookup_append_self c.MysqlConf "innodb-buffer-pool-size"
      (toString (bufferSizeFor
        (c.PodSpec.UpdateDefaults opt cluster).Resources.Requests.memoryValue))
      (Option.isNone_iff_eq_none.mp hbuf)
    split
    · rename_i hlog
      constructor
      · apply lookup_isSome_append
        rw [hb1]
        rfl
      · rw [lookup_append_self _ _ _ (Option.isNone_iff_eq_none.mp hlog)]
        rfl
    · rename_i hlog
      exact ⟨by rw [hb1]; rfl, isSome_of_not_isNone hlog⟩
  · rw [if_neg hbuf]
    split
    · rename_i hlog
      constructor
      · exact lookup_isSome_append _ _ _ (isSome_of_not_isNone hbuf)
      · rw [lookup_append_self _ _ _ (Option.isNone_iff_eq_none.mp hlog)]
        rfl
    · rename_i hlog
      exact ⟨isSome_of_not_isNone hbuf, isSome_of_not_isNone hlog⟩

/-- A present key's `isNone` test is false. -/
theorem isNone_eq_false_of_isSome {o : Option String}
    (h : o.isSome = true) : ¬o.isNone = true := by
  cases o with
  | none => simp at h
  | some v => simp

/-- Embeds `ClusterSpec.UpdateDefaults` is idempotent (for any second cluster
argument with the same labels). -/
theorem clusterSpec_updateDefaults_idem (opt : Options) (cl cl' : MysqlCluster)
    (c : ClusterSpec) (hl : cl'.GetLabels = cl.GetLabels) :
    (c.UpdateDefaults opt cl).UpdateDefaults opt cl' = c.UpdateDefaults opt cl := by
  apply ClusterSpec.ext
  · rw [clusterSpec_updateDefaults_mysqlVersion, clusterSpec_updateDefaults_mysqlVersion]
    by_cases h1 : c.MysqlVersion.length = 0 <;>
      by_cases h2 : opt.MysqlImageTag.length = 0 <;> simp [h1, h2]
  · rw [clusterSpec_updateDefaults_secretName, clusterSpec_updateDefaults_secretName]
  · obtain ⟨hb, hlog⟩ := clusterSpec_updateDefaults_conf_keys opt cl c
    rw [clusterSpec_updateDefaults_conf]
    dsimp only
    rw [if_neg (isNone_eq_false_of_isSome hb),
      if_neg (isNone_eq_false_of_isSome hlog)]
  · rw [clusterSpec_updateDefaults_podSpec, clusterSpec_updateDefaults_podSpec]
    exact podSpec_updateDefaults_idem opt cl cl' c.PodSpec hl
  · rw [clusterSpec_updateDefaults_volumeSpec, clusterSpec_updateDefaults_volumeSpec]
    exact volumeSpec_updateDefaults_idem c.VolumeSpec

/-- A present key survives appending. -/
theorem lookup_append_of_some (m m' : MysqlConf) (k v : String)
    (h : m.lookup k = some v) : (m ++ m').lookup k = some v := by
  rw [lookup_append, h]
  rfl

/-- Embeds `MysqlCluster.UpdateDefaults` is idempotent. -/
theorem mysqlCluster_updateDefaults_idem (opt : Options) (c : MysqlCluster) :
    (c.UpdateDefaults opt).UpdateDefaults opt = c.UpdateDefaults opt := by
  obtain ⟨nm, ns, spec, st⟩ := c
  show MysqlCluster.mk nm ns
      ((spec.UpdateDefaults opt ⟨nm, ns, spec, st⟩).UpdateDefaults opt
        ⟨nm, ns, spec.UpdateDefaults opt ⟨nm, ns, spec, st⟩, st⟩) st =
    MysqlCluster.mk nm ns (spec.UpdateDefaults opt ⟨nm, ns, spec, st⟩) st
  rw [clusterSpec_updateDefaults_idem opt ⟨nm, ns, spec, st⟩
    ⟨nm, ns, spec.UpdateDefaults opt ⟨nm, ns, spec, st⟩, st⟩ spec rfl]

/-- C7 counterexample: a pod resource-limits value set while the requests
map is empty is erased by applying defaults — the requests-floor assignment
replaces the whole `ResourceRequirements` struct — refuting the claim's
"every field that is already set before the call is left unchanged by the
call". -/
theorem c7_limits_dropped :
    (MysqlCluster.UpdateDefaults {}
        { Name := "foo",
          Spec := { PodSpec := { Resources :=
            { Limits := { memory := some (2 * GB) } } } } }).Spec.PodSpec.Resources.Limits.memory
      = none ∧
    ({ Name := "foo",
       Spec := { PodSpec := { Resources :=
         { Limits := { memory := some (2 * GB) } } } } } :
        MysqlCluster).Spec.PodSpec.Resources.Limits.memory = some (2 * GB) := by
  refine ⟨rfl, rfl⟩

/-- C7 (amended): applying defaults twice yields the same definition as
applying it once, and every field already set before the call is left
unchanged — except that a pod or volume resource-limits value accompanied
by an empty requests map is dropped when the requests floor is installed
(the defaulting assigns the whole resource-requirements value). The
resources conjuncts below, conditioned on a nonempty requests map, include
limits preservation. -/
theorem c7_apply_defaults_idempotent (c : MysqlCluster) (opt : Options) :
    (c.UpdateDefaults opt).UpdateDefaults opt = c.UpdateDefaults opt ∧
    (c.Spec.MysqlVersion ≠ "" →
      (c.UpdateDefaults opt).Spec.MysqlVersion = c.Spec.MysqlVersion) ∧
    (∀ k v, c.Spec.MysqlConf.lookup k = some v →
      (c.UpdateDefaults opt).Spec.MysqlConf.lookup k = some v) ∧
    (c.Spec.PodSpec.ImagePullPolicy ≠ "" →
      (c.UpdateDefaults opt).Spec.PodSpec.ImagePullPolicy =
        c.Spec.PodSpec.ImagePullPolicy) ∧
    (c.Spec.PodSpec.Resources.Requests.count ≠ 0 →
      (c.UpdateDefaults opt).Spec.PodSpec.Resources = c.Spec.PodSpec.Resources) ∧
    (∀ a, c.Spec.PodSpec.Affinity.PodAntiAffinity = some a →
      (c.UpdateDefaults opt).Spec.PodSpec.Affinity.PodAntiAffinity = some a) ∧
    (c.Spec.VolumeSpec.AccessModes ≠ [] →
      (c.UpdateDefaults opt).Spec.VolumeSpec.AccessModes =
        c.Spec.VolumeSpec.AccessModes) ∧
    (c.Spec.VolumeSpec.Resources.Requests.count ≠ 0 →
      (c.UpdateDefaults opt).Spec.VolumeSpec.Resources =
        c.Spec.VolumeSpec.Resources) := by
  refine ⟨mysqlCluster_updateDefaults_idem opt c, ?_, ?_, ?_, ?_, ?_, ?_, ?_⟩
  · intro h
    show (c.Spec.UpdateDefaults opt c).MysqlVersion = _
    rw [clusterSpec_updateDefaults_mysqlVersion,
      if_neg (fun hlen => h (string_length_eq_zero.mp hlen))]
  · intro k v hkv
    show (c.Spec.UpdateDefaults opt c).MysqlConf.lookup k = some v
    rw [clusterSpec_updateDefaults_conf]
    dsimp only
    split <;> split <;>
      first
        | exact hkv
        | exact lookup_append_of_some _ _ _ _ hkv
        | exact lookup_append_of_some _ _ _ _ (lookup_append_of_some _ _ _ _ hkv)
  · intro h
    show (c.Spec.UpdateDefaults opt c).PodSpec.ImagePullPolicy = _
    rw [clusterSpec_updateDefaults_podSpec, podSpec_updateDefaults_ipp,
      if_neg (fun hlen => h (string_length_eq_zero.mp hlen))]
  · intro h
    show (c.Spec.UpdateDefaults opt c).PodSpec.Resources = _
    rw [clusterSpec_updateDefaults_podSpec, podSpec_updateDefaults_resources_eq,
      if_neg h]
  · intro a ha
    show (c.Spec.UpdateDefaults opt c).PodSpec.Affinity.PodAntiAffinity = _
    rw [clusterSpec_updateDefaults_podSpec, podSpec_updateDefaults_affinity_eq]
    simp [ha]
  · intro h
    show (c.Spec.UpdateDefaults opt c).VolumeSpec.AccessModes = _
    rw [clusterSpec_updateDefaults_volumeSpec, volumeSpec_updateDefaults_accessModes,
      if_neg (fun hlen => h (List.length_eq_zero.mp hlen))]
  · intro h
    show (c.Spec.UpdateDefaults opt c).VolumeSpec.Resources = _
    rw [clusterSpec_updateDefaults_volumeSpec, volumeSpec_updateDefaults_resources,
      if_neg h]

/-- The anti-affinity value already set on the C7 witness cluster. -/
def c7term : PodAntiAffinity :=
  { PreferredDuringSchedulingIgnoredDuringExecution := [] }

/-- Pod spec for the C7 witness: pull policy, requests (with limits
alongside) and anti-affinity all set. -/
def c7pod : PodSpec :=
  { ImagePullPolicy := "Always",
    Resources := { Requests := { cpu := some "100m" },
                   Limits := { memory := some GB } },
    Affinity := { PodAntiAffinity := some c7term } }

/-- Volume spec for the C7 witness, with access modes and requests set. -/
def c7vol : VolumeSpec :=
  { AccessModes := ["ReadWriteMany"],
    Resources := { Requests := { storage := some "2Gi" } } }

/-- The C7 witness cluster definition: every defaulted field is already
set (version, pull policy, one configuration key, pod requests together
with limits, anti-affinity, volume access modes and requests). -/
def c7c : MysqlCluster :=
  { Name := "wit", Ns := "ns",
    Spec := { MysqlVersion := "5.7",
              SecretName := "sec",
              MysqlConf := [("innodb-buffer-pool-size", "42")],
              PodSpec := c7pod,
              VolumeSpec := c7vol } }

/-- C7 amended witness: on a definition with every defaulted field already
set, applying defaults twice equals once and every set field — including
the pod limits, whose requests map is nonempty — survives. -/
theorem c7_apply_defaults_idempotent_witness :
    (c7c.UpdateDefaults {}).UpdateDefaults {} = c7c.UpdateDefaults {} ∧
    (c7c.UpdateDefaults {}).Spec.MysqlVersion = "5.7" ∧
    (c7c.UpdateDefaults {}).Spec.MysqlConf.lookup "innodb-buffer-pool-size" =
      some "42" ∧
    (c7c.UpdateDefaults {}).Spec.PodSpec.ImagePullPolicy = "Always" ∧
    (c7c.UpdateDefaults {}).Spec.PodSpec.Resources = c7c.Spec.PodSpec.Resources ∧
    (c7c.UpdateDefaults {}).Spec.PodSpec.Affinity.PodAntiAffinity =
      some c7term ∧
    (c7c.UpdateDefaults {}).Spec.VolumeSpec.AccessModes = ["ReadWriteMany"] ∧
    (c7c.UpdateDefaults {}).Spec.VolumeSpec.Resources =
      c7c.Spec.VolumeSpec.Resources := by
  have h := c7_apply_defaults_idempotent c7c {}
  exact ⟨h.1,
    (h.2.1 (by decide)).trans rfl,
    h.2.2.1 "innodb-buffer-pool-size" "42" rfl,
    (h.2.2.2.1 (by decide)).trans rfl,
    h.2.2.2.2.1 (by decide),
    h.2.2.2.2.2.1 c7term rfl,
    (h.2.2.2.2.2.2.1 (by decide)).trans rfl,
    h.2.2.2.2.2.2.2 (by decide)⟩

end MysqlOperator
